import Mathlib

/-!
Shallow embedding of the conversational-editing core of `app.py` (a Flask app
that generates, iteratively edits and finalizes legal blog posts).

Python session state (`session['current_post']`, `session['chat_history']`,
`session['session_id']`) is modelled by `SessionState`; the flat-file content
store (`Config.GENERATED_DIR`) by an association list `Store`; the external
Azure text/image capabilities by function parameters, fallible ones returning
`Except String`.  Timestamps and fresh identifiers are opaque strings supplied
as parameters.  Python truthiness of optional strings (`if filename:`,
`if current_content:`, `if post.get('image')`) is modelled by `pyTruthy`.
-/

/-- One entry of `session['chat_history']` (dict with keys role, content,
content_is_blog, timestamp). -/
structure ChatMessage where
  role : String
  content : String
  content_is_blog : Bool
  timestamp : String
deriving Repr, DecidableEq

/-- `session['current_post']`: keys absent in some code paths (original, image,
tone, filename) are `Option`s. -/
structure CurrentPost where
  original : Option String
  content : String
  image : Option String
  created : String
  tone : Option String
  filename : Option String
deriving Repr, DecidableEq

/-- The three session keys used by the editing workflow; a missing key is
`none` (for `chat_history`, a missing key is distinct from an empty list,
matching the Python membership tests). -/
structure SessionState where
  current_post : Option CurrentPost
  chat_history : Option (List ChatMessage)
  session_id : Option String
deriving Repr, DecidableEq

/-- Python truthiness of an optional string: `None` and `""` are falsy. -/
def pyTruthy (s : Option String) : Bool :=
  match s with
  | some x => x != ""
  | none => false

/-- Python `str.lower()` (over the string's characters; the inputs at hand
are ASCII). Defined structurally so that concrete instances evaluate. -/
def pyLower (s : String) : String := ⟨s.data.map Char.toLower⟩

/-- Python `str.strip()`: drop leading and trailing whitespace. Defined
structurally so that concrete instances evaluate. -/
def pyStrip (s : String) : String :=
  ⟨((s.data.dropWhile Char.isWhitespace).reverse.dropWhile
      Char.isWhitespace).reverse⟩

/-- A handler outcome: `redirect(url_for(target))` or `render_template`,
recording the `image_url` computed for the template. -/
inductive Response where
  | redirect (target : String)
  | render (template : String) (image_url : Option String)
deriving Repr, DecidableEq

/-- `url_for('static', filename=f'generated/...') if post.get('image') else None`. -/
def imageUrl (image : Option String) : Option String :=
  if pyTruthy image then (image.map (fun i => "static/generated/" ++ i)) else none

/-- The generated-content directory as a map from filename to file content
(most recent write first). -/
abbrev Store := List (String × String)

/-- Reading a file from `Config.GENERATED_DIR`; `none` models the `open`
raising (file absent). -/
def Store.load (s : Store) (f : String) : Option String :=
  (s.find? (fun p => p.1 == f)).map Prod.snd

/-- `FileManager.save_content`: writes `content` under a fresh
timestamp-derived name (supplied here as `newName`) and returns that name. -/
def Store.save (s : Store) (newName : String) (content : String) : Store × String :=
  ((newName, content) :: s, newName)

/-- The backward scan used by the chat-edit branch of `review`:
`next((msg['content'] for msg in reversed(history) if msg['content_is_blog']), ...)`. -/
def lastBlogContent (history : List ChatMessage) : Option String :=
  (history.reverse.find? (fun m => m.content_is_blog)).map
    (fun m => m.content)

/-- The spec's transcript invariant, as a decidable check: when a post is
live, the latest `is_blog_content=true` transcript message holds exactly
`post.content`. -/
def blogInvariant (st : SessionState) : Bool :=
  match st.current_post with
  | none => true
  | some post => lastBlogContent (st.chat_history.getD []) == some post.content

/-- `use_version` (POST): requires a live post, overwrites its content with
the submitted form content, redirects to `finalize`. -/
def use_version (st : SessionState) (formContent : String) : SessionState × Response :=
  match st.current_post with
  | none => (st, Response.redirect "dashboard")
  | some post =>
    ({ st with current_post := some { post with content := formContent } },
     Response.redirect "finalize")

/-- `save_changes` (POST): requires a live post, sets its content to
`request.form.get('content', '')`, appends a system audit message to the chat
history (creating the history if the key is missing), redirects to `finalize`. -/
def save_changes (nowHM : String) (st : SessionState) (formContent : Option String) :
    SessionState × Response :=
  match st.current_post with
  | none => (st, Response.redirect "dashboard")
  | some post =>
    let edited_content := formContent.getD ""
    let hist := st.chat_history.getD []
    ({ current_post := some { post with content := edited_content },
       chat_history := some (hist ++
         [⟨"system", "User saved manual changes", false, nowHM⟩]),
       session_id := st.session_id },
     Response.redirect "finalize")

/-- `finalize` (GET): requires a live post, saves its content to the store
under a fresh name, renders the finalize template. -/
def finalize (newName : String) (store : Store) (st : SessionState) :
    Store × Response :=
  match st.current_post with
  | none => (store, Response.redirect "dashboard")
  | some post =>
    let saved := store.save newName post.content
    (saved.1, Response.render "finalize.html" (imageUrl post.image))

/-- A concrete post used to exercise the session handlers. -/
def examplePost : CurrentPost :=
  { original := none, content := "Hello", image := none,
    created := "c", tone := none, filename := some "f.txt" }

/-- A concrete live session (one blog-content transcript entry). -/
def exampleSession : SessionState :=
  { current_post := some examplePost,
    chat_history := some [⟨"assistant", "Hello", true, "t"⟩],
    session_id := some "sid" }

/-- The parts of a `review` request the handler inspects: the HTTP method,
the `filename` query argument, and the `edit_message` / `content` form
fields (`None` models an absent key). -/
structure ReviewRequest where
  method_post : Bool
  arg_filename : Option String
  form_edit_message : Option String
  form_content : Option String
deriving Repr, DecidableEq

/-- Body of `review` after the saved-file bootstrap attempt: redirect to the
dashboard when no post is live; otherwise ensure `session_id` and
`chat_history` exist, then dispatch on the method and form fields.
`editFn session_id user_message current_content` stands for a successful
`azure_services.edit_content` call (its failure case is treated separately in
`edit_content`); `newFilename` is the fresh name `FileManager.save_content`
would generate on the GET path. -/
def reviewMain (store : Store) (editFn : String → String → String → String)
    (freshId newFilename nowHM : String) (req : ReviewRequest)
    (st : SessionState) : SessionState × Store × Response :=
  match st.current_post with
  | none => (st, store, Response.redirect "dashboard")
  | some post =>
    let sid := st.session_id.getD freshId
    let hist := st.chat_history.getD [⟨"assistant", post.content, true, nowHM⟩]
    if req.method_post then
      match req.form_edit_message with
      | some user_message =>
        let current_content := (lastBlogContent hist).getD post.content
        let edited_content := editFn sid user_message current_content
        ({ current_post := some { post with content := edited_content },
           chat_history := some (hist ++
             [⟨"user", user_message, false, nowHM⟩,
              ⟨"assistant", edited_content, true, nowHM⟩]),
           session_id := some sid },
         store, Response.redirect "review")
      | none =>
        match req.form_content with
        | some c =>
          ({ current_post := some { post with content := c },
             chat_history := some (hist ++ [⟨"assistant", c, true, nowHM⟩]),
             session_id := some sid },
           store, Response.redirect "review")
        | none =>
          ({ current_post := some post, chat_history := some hist,
             session_id := some sid },
           store, Response.redirect "review")
    else
      match post.filename with
      | none =>
        let saved := store.save newFilename post.content
        ({ current_post := some { post with filename := some saved.2 },
           chat_history := some hist, session_id := some sid },
         saved.1, Response.render "review.html" (imageUrl post.image))
      | some _ =>
        ({ current_post := some post, chat_history := some hist,
           session_id := some sid },
         store, Response.render "review.html" (imageUrl post.image))

/-- `review`: when a truthy `filename` argument is present and no post is
live, try to load that file from the generated-content store; on success
rebuild `current_post`, a one-entry chat history and a fresh session id; on
failure (the `open` raising, caught by the handler) redirect to the
dashboard. Then proceed with `reviewMain`. -/
def review (store : Store) (editFn : String → String → String → String)
    (freshId newFilename now nowHM : String) (req : ReviewRequest)
    (st : SessionState) : SessionState × Store × Response :=
  if pyTruthy req.arg_filename && st.current_post.isNone then
    match store.load (req.arg_filename.getD "") with
    | none => (st, store, Response.redirect "dashboard")
    | some content =>
      let post : CurrentPost :=
        { original := none, content := content, image := none,
          created := now, tone := none, filename := req.arg_filename }
      reviewMain store editFn freshId newFilename nowHM req
        { current_post := some post,
          chat_history := some [⟨"assistant", content, true, nowHM⟩],
          session_id := some freshId }
  else
    reviewMain store editFn freshId newFilename nowHM req st

/-- An edit capability stub used by concrete witnesses. -/
def exEditFn : String → String → String → String :=
  fun _ _ _ => "EDITED"

/-- A concrete generated-content store. -/
def exampleStore : Store := [("f.txt", "Saved")]

/-- A session with none of the three workflow keys set. -/
def emptySession : SessionState :=
  { current_post := none, chat_history := none, session_id := none }

/-- One chat-completions message sent to the Azure text capability. -/
structure PyMsg where
  role : String
  content : String
deriving Repr, DecidableEq

/-- System prompt of `AzureServices.rewrite_content` (f-string fields spliced
by concatenation; the triple-quoted indentation is condensed to newlines). -/
def rewritePrompt (tone keywords firm_name location : String) : String :=
  "You are a legal blog post rewriter. There should be At least 30% changes " ++
  "from original. Rewrite the article following these strict guidelines:\n\n" ++
  "DO\x27s:\n" ++
  "1. Use active voice\n" ++
  "2. Structure with 5 sections: introduction, 3 subheadings, and conclusion " ++
  "with call-to-action\n" ++
  "3. Keep length between 1000-1200 words\n" ++
  "4. Use transition sentences between sections\n" ++
  "5. Conclusion should be brief (1-2 sentences) with clear call-to-action\n" ++
  "6. Include 1-2 bulleted lists in the entire article\n" ++
  "7. Balance paragraphs and lists appropriately\n" ++
  "8. Use " ++ tone ++ " tone\n" ++
  "9. Include these keywords naturally: " ++ keywords ++ "\n" ++
  "10. Mention " ++ firm_name ++ " in " ++ location ++ " where relevant\n\n" ++
  "DON\x27Ts:\n" ++
  "1. Avoid legal jargon or complex language (keep it high-school level)\n" ++
  "2. No passive voice\n" ++
  "3. Don\x27t use lists without context\n" ++
  "4. Limit metaphors\n" ++
  "5. Don\x27t make conclusion too long\n" ++
  "6. Don\x27t include more than 5 sources\n" ++
  "7. Don\x27t exceed 1200 words\n" ++
  "8. Don\x27t use more than 3 lists\n\n" ++
  "Formatting Requirements:\n" ++
  "# Main Title\n" ++
  "## Subheading 1\n" ++
  "### Sub-subheading (if needed)\n" ++
  "**Bold important terms**\n" ++
  "- Bullet points when appropriate\n" ++
  "[Link text](URL) for references\n\n" ++
  "The article must be valuable, engaging, and optimized for both readers " ++
  "and search engines."

/-- `AzureServices.rewrite_content`: one chat-completions call with the
rewrite system prompt and the original text; `capability` stands for the
underlying `chat.completions.create(...).choices[0].message.content` and its
result — success or failure — is returned as-is: there is no try/except in
this method. -/
def rewrite_content (capability : List PyMsg → Except String String)
    (original_text tone keywords firm_name location : String) :
    Except String String :=
  capability [⟨"system", rewritePrompt tone keywords firm_name location⟩,
              ⟨"user", original_text⟩]

/-- System prompt seeded into a fresh multi-turn edit conversation. -/
def editSystemPrompt : String :=
  "You are a legal blog post editor. When the user requests changes:\n" ++
  "1. Make ONLY the requested changes\n" ++
  "2. Return the COMPLETE updated blog (not just updated part) in markdown " ++
  "format\n" ++
  "3. Don\x27t include any commentary or explanations\n" ++
  "4. Preserve all formatting and structure"

/-- `AzureServices.conversations`: the process-wide multi-turn memory keyed
by session id. -/
abbrev Conversations := List (String × List PyMsg)

/-- Dictionary lookup `self.conversations[session_id]`. -/
def Conversations.get (cs : Conversations) (sid : String) :
    Option (List PyMsg) :=
  (cs.find? (fun p => p.1 == sid)).map Prod.snd

/-- Dictionary assignment `self.conversations[session_id] = conv`. -/
def Conversations.put (cs : Conversations) (sid : String)
    (conv : List PyMsg) : Conversations :=
  if (cs.find? (fun p => p.1 == sid)).isSome then
    cs.map (fun p => if p.1 == sid then (sid, conv) else p)
  else
    (sid, conv) :: cs

/-- `AzureServices.edit_content`: seeds the per-session conversation if
missing, appends `current_content` (when truthy) and the user message, then
calls the capability. The Python mutates the dict before the call, so on
failure the appended turns persist while the exception escapes — the method
has no try/except; here the error is returned unchanged in the second
component. -/
def edit_content (capability : List PyMsg → Except String String)
    (conversations : Conversations) (session_id user_message : String)
    (current_content : Option String) :
    Conversations × Except String String :=
  let conv0 :=
    match Conversations.get conversations session_id with
    | some c => c
    | none => [⟨"system", editSystemPrompt⟩]
  let conv1 :=
    if pyTruthy current_content then
      conv0 ++ [⟨"assistant", current_content.getD ""⟩]
    else conv0
  let conv2 := conv1 ++ [⟨"user", user_message⟩]
  match capability conv2 with
  | Except.error e =>
    (Conversations.put conversations session_id conv2, Except.error e)
  | Except.ok ai_response =>
    (Conversations.put conversations session_id
       (conv2 ++ [⟨"assistant", ai_response⟩]),
     Except.ok ai_response)

/-- System prompt of `AzureServices._get_safe_image_prompt`. -/
def safeImagePromptSystem : String :=
  "You are a prompt engineer for legal blog images. Create a safe, " ++
  "professional image prompt that:\n" ++
  "- Uses only abstract legal concepts\n" ++
  "- Avoids any faces, people, or sensitive content\n" ++
  "- Focuses on documents, scales of justice, legal symbols\n" ++
  "- Maintains a professional, corporate style\n" ++
  "- Will pass Azure content filters\n" ++
  "- Is based on this blog content:"

/-- `AzureServices._get_safe_image_prompt`: one text-capability call on the
first 1000 characters of the blog content; no try/except of its own (its
failures are caught by `generate_image`, whose try block contains the call). -/
def get_safe_image_prompt (capability : List PyMsg → Except String String)
    (text_prompt : String) : Except String String :=
  capability [⟨"system", safeImagePromptSystem⟩,
              ⟨"user", text_prompt.take 1000⟩]

/-- `AzureServices.generate_image`: sanitize the prompt, call the image API,
download the result to a timestamped file; every step sits inside one
try/except whose handler prints the failure and returns `None`. The second
component is the log written by that handler (empty on success). -/
def generate_image (capability : List PyMsg → Except String String)
    (imagesGenerate : String → Except String String)
    (download : String → Except String String)
    (timestamp : Nat) (text_prompt : String) : Option String × List String :=
  match get_safe_image_prompt capability text_prompt with
  | Except.error e => (none, ["Image generation failed: " ++ e])
  | Except.ok safe_prompt =>
    match imagesGenerate safe_prompt with
    | Except.error e => (none, ["Image generation failed: " ++ e])
    | Except.ok image_url =>
      match download image_url with
      | Except.error e => (none, ["Image generation failed: " ++ e])
      | Except.ok _ =>
        (some ("image_" ++ toString timestamp ++ ".png"), [])

/-- Tone resolution at the top of the `select_article` POST branch:
`if tone == 'custom' and custom_tone: tone = custom_tone`. -/
def effectiveTone (formTone formCustomTone : String) : String :=
  let custom_tone := pyStrip formCustomTone
  if formTone == "custom" && custom_tone != "" then custom_tone else formTone

/-- Result of the `select_article` POST branch: the rebuilt session, the
store after the draft is saved, the image-failure log, and the redirect. -/
structure SelectResult where
  st : SessionState
  store : Store
  log : List String
  response : Response

/-- The POST branch of `select_article`: rewrite the article (here
`rewriteFn` stands for a successful `rewrite_content` call — its failures
propagate out of the handler, see `rewrite_edit_propagate_failure`),
best-effort `generate_image`, save the draft, rebuild `current_post`, a
one-entry chat history and a fresh session id, redirect to `review`. -/
def select_article_post
    (rewriteFn : String → String → String → String → String → String)
    (capability : List PyMsg → Except String String)
    (imagesGenerate : String → Except String String)
    (download : String → Except String String)
    (timestamp : Nat)
    (article articleText formTone formCustomTone keywords firm location : String)
    (saveName freshId now nowHM : String) (store : Store) : SelectResult :=
  let tone := effectiveTone formTone formCustomTone
  let blog_content := rewriteFn articleText tone keywords firm location
  let gi := generate_image capability imagesGenerate download timestamp
    blog_content
  let saved := store.save saveName blog_content
  let post : CurrentPost :=
    ⟨some article, blog_content, gi.1, now, some tone, some saved.2⟩
  let st : SessionState :=
    { current_post := some post,
      chat_history := some [⟨"assistant", blog_content, true, nowHM⟩],
      session_id := some freshId }
  { st := st, store := saved.1, log := gi.2,
    response := Response.redirect "review" }

/-- A rewrite capability stub returning a fixed draft. -/
def exRewriteFn : String → String → String → String → String → String :=
  fun _ _ _ _ _ => "BLOG"

/-- A text capability stub that always succeeds. -/
def exOkCapability : List PyMsg → Except String String :=
  fun _ => Except.ok "SAFE"

/-- An image API stub that always fails. -/
def exFailImages : String → Except String String :=
  fun _ => Except.error "quota"

/-- A download stub that always succeeds. -/
def exOkDownload : String → Except String String :=
  fun _ => Except.ok "bytes"

/-- Concrete draft-generation run whose image API call fails. -/
def exSelect : SelectResult :=
  select_article_post exRewriteFn exOkCapability exFailImages exOkDownload 7
    "A.docx" "orig" "Professional" "" "contract law" "Legal Partners"
    "New York" "blog_1.txt" "fid" "now" "t" []

/-- A chat edit applied to that imageless draft. -/
def exReview : SessionState × Store × Response :=
  review exSelect.store exEditFn "fid2" "fn2" "n2" "t2"
    ⟨true, none, some "shorten", none⟩ exSelect.st

/-- One user-defined tone, stored with stripped name and description. -/
structure Tone where
  name : String
  description : String
deriving Repr, DecidableEq

/-- One entry of the global `UserSession.USERS` dictionary. -/
structure UserRecord where
  email : String
  password : String
  firm : String
  location : String
  custom_tones : List Tone
deriving Repr, DecidableEq

/-- The global user directory, keyed by username. -/
abbrev Users := List (String × UserRecord)

/-- `UserSession.USERS` as initialized at module load. -/
def USERS : Users :=
  [("admin", ⟨"admin@lawfirm.com", "password123", "Legal Partners",
      "New York", []⟩),
   ("memberhub", ⟨"memberhub@newlawbusinessmodel.com", "memberhub123",
      "New Law Business Model", "Global", []⟩)]

/-- Dictionary lookup `USERS[username]` (with the `username in USERS` guard). -/
def lookupUser (users : Users) (username : String) : Option UserRecord :=
  (users.find? (fun p => p.1 == username)).map Prod.snd

/-- Dictionary assignment of an existing key (the code only writes back to a
username it just found). -/
def setUser (users : Users) (username : String) (r : UserRecord) : Users :=
  users.map (fun p => if p.1 == username then (username, r) else p)

/-- `UserSession.add_custom_tone`: for a known username, reject when some
stored tone's lowercased name equals the lowercased candidate name, else
append a tone with stripped name and description. (The `custom_tones`
initialization guard is a no-op here: every `UserRecord` carries the list;
the mirroring of the stored list into `session['user']` copies the same list
and is omitted from the state.) -/
def add_custom_tone (users : Users) (username tone_name tone_description : String) :
    Users × Bool :=
  match lookupUser users username with
  | none => (users, false)
  | some u =>
    if u.custom_tones.any
        (fun t => pyLower t.name == pyLower tone_name) then
      (users, false)
    else
      (setUser users username
        { u with custom_tones := u.custom_tones ++
            [⟨pyStrip tone_name, pyStrip tone_description⟩] },
       true)

/-- The `/add_tone` route: strips both form fields, rejects an empty name,
then delegates to `add_custom_tone` — so names reaching `add_custom_tone`
through the web surface never carry surrounding whitespace. -/
def add_tone (users : Users) (username rawName rawDescription : String) :
    Users × Bool :=
  let tone_name := pyStrip rawName
  let tone_description := pyStrip rawDescription
  if tone_name == "" then (users, false)
  else add_custom_tone users username tone_name tone_description

/-- C10: `use_version` sets `post.content` to the submitted form content and
leaves the chat transcript and the session id unchanged; no transcript message
of any kind is appended; the handler redirects to `finalize`. -/
theorem use_version_sets_content_leaves_transcript
    (st : SessionState) (post : CurrentPost) (c : String)
    (hpost : st.current_post = some post) :
    (use_version st c).1.current_post = some { post with content := c } ∧
    (use_version st c).1.chat_history = st.chat_history ∧
    (use_version st c).1.session_id = st.session_id ∧
    (use_version st c).2 = Response.redirect "finalize" := by
  simp [use_version, hpost]

/-- Concrete instance of `use_version_sets_content_leaves_transcript`. -/
theorem use_version_sets_content_leaves_transcript_witness :
    exampleSession.current_post = some examplePost ∧
    ((use_version exampleSession "Changed").1.current_post =
       some { examplePost with content := "Changed" } ∧
     (use_version exampleSession "Changed").1.chat_history =
       exampleSession.chat_history ∧
     (use_version exampleSession "Changed").1.session_id =
       exampleSession.session_id ∧
     (use_version exampleSession "Changed").2 = Response.redirect "finalize") :=
  ⟨rfl, use_version_sets_content_leaves_transcript exampleSession examplePost
    "Changed" rfl⟩

/-- C9 (amended): with a live post, `save_changes` appends exactly one
non-blog system message to the transcript (creating the transcript if the
session key is missing) and sets `post.content` to the submitted form content
(empty string when the field is absent), then redirects to `finalize`. -/
theorem save_changes_appends_note_and_sets_content
    (nowHM : String) (st : SessionState) (post : CurrentPost)
    (c : Option String) (hpost : st.current_post = some post) :
    (save_changes nowHM st c).1.current_post =
      some { post with content := c.getD "" } ∧
    (save_changes nowHM st c).1.chat_history =
      some ((st.chat_history.getD []) ++
        [⟨"system", "User saved manual changes", false, nowHM⟩]) ∧
    (save_changes nowHM st c).1.session_id = st.session_id ∧
    (save_changes nowHM st c).2 = Response.redirect "finalize" := by
  simp [save_changes, hpost]

/-- Concrete instance of `save_changes_appends_note_and_sets_content`. -/
theorem save_changes_appends_note_and_sets_content_witness :
    exampleSession.current_post = some examplePost ∧
    ((save_changes "t2" exampleSession (some "B")).1.current_post =
       some { examplePost with content := "B" } ∧
     (save_changes "t2" exampleSession (some "B")).1.chat_history =
       some ((exampleSession.chat_history.getD []) ++
         [⟨"system", "User saved manual changes", false, "t2"⟩]) ∧
     (save_changes "t2" exampleSession (some "B")).1.session_id =
       exampleSession.session_id ∧
     (save_changes "t2" exampleSession (some "B")).2 =
       Response.redirect "finalize") :=
  ⟨rfl, save_changes_appends_note_and_sets_content "t2" exampleSession
    examplePost (some "B") rfl⟩

/-- C9 counterexample: the claim says `save_changes` does not alter
`post.content`, but on a live post whose content is "Hello" a request whose
form carries "B" leaves `post.content = "B"`. -/
theorem save_changes_alters_post_content :
    (exampleSession.current_post.map CurrentPost.content = some "Hello") ∧
    ((save_changes "t2" exampleSession (some "B")).1.current_post.map
       CurrentPost.content = some "B") ∧
    ("B" : String) ≠ "Hello" := by
  refine ⟨rfl, rfl, ?_⟩
  decide

/-- C1 counterexample: starting from a session satisfying the transcript
invariant, `use_version` with form content "Changed" and `save_changes` with
form content "Other" each overwrite `post.content` without appending a
blog-content message, so the invariant fails after either operation. -/
theorem invariant_violated_by_use_version_and_save_changes :
    blogInvariant exampleSession = true ∧
    blogInvariant (use_version exampleSession "Changed").1 = false ∧
    blogInvariant (save_changes "t2" exampleSession (some "Other")).1 = false := by
  refine ⟨rfl, ?_, ?_⟩ <;> decide

/-- Appending a blog-content message makes it the message found by the
backward scan. -/
theorem lastBlogContent_append_blog (h : List ChatMessage) (a : ChatMessage)
    (ha : a.content_is_blog = true) :
    lastBlogContent (h ++ [a]) = some a.content := by
  simp [lastBlogContent, ha]

/-- Appending a non-blog message then a blog-content message also makes the
latter the message found by the backward scan. -/
theorem lastBlogContent_append_user_blog (h : List ChatMessage)
    (u a : ChatMessage) (ha : a.content_is_blog = true) :
    lastBlogContent (h ++ [u, a]) = some a.content := by
  simp [lastBlogContent, ha]

/-- With a live post, `review` skips the saved-file bootstrap. -/
theorem review_skips_bootstrap (store : Store)
    (editFn : String → String → String → String)
    (freshId newFilename now nowHM : String) (req : ReviewRequest)
    (st : SessionState) (post : CurrentPost)
    (hpost : st.current_post = some post) :
    review store editFn freshId newFilename now nowHM req st =
      reviewMain store editFn freshId newFilename nowHM req st := by
  simp [review, hpost]

/-- Evaluation of the chat-edit branch of `review` on a live post. -/
theorem reviewMain_chat_edit_eq (store : Store)
    (editFn : String → String → String → String)
    (freshId newFilename nowHM : String) (fArg cForm : Option String)
    (st : SessionState) (post : CurrentPost) (u : String)
    (hpost : st.current_post = some post) :
    reviewMain store editFn freshId newFilename nowHM
        ⟨true, fArg, some u, cForm⟩ st =
      (let hist := st.chat_history.getD
         [⟨"assistant", post.content, true, nowHM⟩]
       let sid := st.session_id.getD freshId
       let edited := editFn sid u ((lastBlogContent hist).getD post.content)
       ({ current_post := some { post with content := edited },
          chat_history := some (hist ++
            [⟨"user", u, false, nowHM⟩, ⟨"assistant", edited, true, nowHM⟩]),
          session_id := some sid },
        store, Response.redirect "review")) := by
  simp only [reviewMain, hpost]
  rfl

/-- Evaluation of the manual-edit branch of `review` on a live post. -/
theorem reviewMain_manual_edit_eq (store : Store)
    (editFn : String → String → String → String)
    (freshId newFilename nowHM : String) (fArg : Option String)
    (st : SessionState) (post : CurrentPost) (c : String)
    (hpost : st.current_post = some post) :
    reviewMain store editFn freshId newFilename nowHM
        ⟨true, fArg, none, some c⟩ st =
      (let hist := st.chat_history.getD
         [⟨"assistant", post.content, true, nowHM⟩]
       ({ current_post := some { post with content := c },
          chat_history := some (hist ++ [⟨"assistant", c, true, nowHM⟩]),
          session_id := some (st.session_id.getD freshId) },
        store, Response.redirect "review")) := by
  simp only [reviewMain, hpost]
  rfl

/-- C1 (amended): the transcript invariant holds after every chat edit and
every manual edit processed by `review` on a live post (the two POST branches
of the handler); `use_version` and `save_changes` are excluded, since they
overwrite `post.content` without appending a blog-content message. -/
theorem invariant_after_chat_and_manual_edits
    (store : Store) (editFn : String → String → String → String)
    (freshId newFilename now nowHM : String) (req : ReviewRequest)
    (st : SessionState) (post : CurrentPost)
    (hpost : st.current_post = some post)
    (hm : req.method_post = true)
    (hform : req.form_edit_message.isSome ∨ req.form_content.isSome) :
    blogInvariant
      (review store editFn freshId newFilename now nowHM req st).1 = true := by
  obtain ⟨mp, fa, fem, fc⟩ := req
  simp only at hm
  subst hm
  rw [review_skips_bootstrap store editFn freshId newFilename now nowHM
    _ st post hpost]
  cases fem with
  | some u =>
    rw [reviewMain_chat_edit_eq store editFn freshId newFilename nowHM
      fa fc st post u hpost]
    simp [blogInvariant, lastBlogContent_append_user_blog]
  | none =>
    cases fc with
    | some c =>
      rw [reviewMain_manual_edit_eq store editFn freshId newFilename nowHM
        fa st post c hpost]
      simp [blogInvariant, lastBlogContent_append_blog]
    | none =>
      rcases hform with h1 | h1 <;> simp at h1

/-- C2: on a live post, a chat edit appends a user/non-blog message holding
the instruction, determines `current_content` as the most recent
`is_blog_content=true` transcript message (falling back to `post.content`
when there is none), invokes the edit capability with
(session_id, instruction, current_content), appends the returned text as an
assistant/blog message, and sets `post.content` to that returned text. -/
theorem review_chat_edit_spec
    (store : Store) (editFn : String → String → String → String)
    (freshId newFilename now nowHM : String) (fArg cForm : Option String)
    (st : SessionState) (post : CurrentPost) (instruction : String)
    (hpost : st.current_post = some post) :
    review store editFn freshId newFilename now nowHM
        ⟨true, fArg, some instruction, cForm⟩ st =
      (let hist := st.chat_history.getD
         [⟨"assistant", post.content, true, nowHM⟩]
       let sid := st.session_id.getD freshId
       let current_content := (lastBlogContent hist).getD post.content
       let edited := editFn sid instruction current_content
       ({ current_post := some { post with content := edited },
          chat_history := some (hist ++
            [⟨"user", instruction, false, nowHM⟩,
             ⟨"assistant", edited, true, nowHM⟩]),
          session_id := some sid },
        store, Response.redirect "review")) := by
  rw [review_skips_bootstrap store editFn freshId newFilename now nowHM
    _ st post hpost]
  rw [reviewMain_chat_edit_eq store editFn freshId newFilename nowHM
    fArg cForm st post instruction hpost]

/-- Concrete instance of `review_chat_edit_spec`. -/
theorem review_chat_edit_spec_witness :
    exampleSession.current_post = some examplePost ∧
    review exampleStore exEditFn "fid" "new.txt" "now" "t2"
        ⟨true, none, some "make it shorter", none⟩ exampleSession =
      ({ current_post := some { examplePost with content := "EDITED" },
         chat_history := some [⟨"assistant", "Hello", true, "t"⟩,
           ⟨"user", "make it shorter", false, "t2"⟩,
           ⟨"assistant", "EDITED", true, "t2"⟩],
         session_id := some "sid" },
       exampleStore, Response.redirect "review") :=
  ⟨rfl, review_chat_edit_spec exampleStore exEditFn "fid" "new.txt" "now" "t2"
    none none exampleSession examplePost "make it shorter" rfl⟩

/-- Concrete instance of `invariant_after_chat_and_manual_edits`. -/
theorem invariant_after_chat_and_manual_edits_witness :
    exampleSession.current_post = some examplePost ∧
    ((⟨true, none, some "shorten", none⟩ : ReviewRequest).method_post = true) ∧
    blogInvariant
      (review exampleStore exEditFn "fid" "new.txt" "now" "t2"
        ⟨true, none, some "shorten", none⟩ exampleSession).1 = true :=
  ⟨rfl, rfl,
   invariant_after_chat_and_manual_edits exampleStore exEditFn "fid" "new.txt"
     "now" "t2" ⟨true, none, some "shorten", none⟩ exampleSession examplePost
     rfl rfl (Or.inl rfl)⟩

/-- C6: opening the review screen with a stored filename whose file holds
content C, while no session is live, recreates a session whose transcript is
exactly one assistant `is_blog_content=true` message with content C, sets
`post.content` to C, and renders the review screen. -/
theorem review_bootstrap_from_saved_file
    (store : Store) (editFn : String → String → String → String)
    (freshId newFilename now nowHM f C : String) (st : SessionState)
    (hf : f ≠ "") (hload : store.load f = some C)
    (hst : st.current_post = none) :
    review store editFn freshId newFilename now nowHM
        ⟨false, some f, none, none⟩ st =
      ({ current_post := some (⟨none, C, none, now, none, some f⟩ : CurrentPost),
         chat_history := some [⟨"assistant", C, true, nowHM⟩],
         session_id := some freshId },
       store, Response.render "review.html" none) := by
  simp [review, pyTruthy, hf, hst, hload, reviewMain, imageUrl]

/-- Concrete instance of `review_bootstrap_from_saved_file`. -/
theorem review_bootstrap_from_saved_file_witness :
    ("f.txt" : String) ≠ "" ∧
    exampleStore.load "f.txt" = some "Saved" ∧
    emptySession.current_post = none ∧
    review exampleStore exEditFn "fid" "new.txt" "now" "t2"
        ⟨false, some "f.txt", none, none⟩ emptySession =
      ({ current_post :=
           some (⟨none, "Saved", none, "now", none, some "f.txt"⟩ : CurrentPost),
         chat_history := some [⟨"assistant", "Saved", true, "t2"⟩],
         session_id := some "fid" },
       exampleStore, Response.render "review.html" none) :=
  ⟨by decide, rfl, rfl,
   review_bootstrap_from_saved_file exampleStore exEditFn "fid" "new.txt"
     "now" "t2" "f.txt" "Saved" emptySession (by decide) rfl rfl⟩

/-- C3: a failure of the underlying text-generation capability is not caught
inside `rewrite_content` or `edit_content`; both operations surface exactly
that failure to their caller. -/
theorem rewrite_edit_propagate_failure
    (capability : List PyMsg → Except String String) (e : String)
    (original_text tone keywords firm_name location : String)
    (conversations : Conversations) (sid user_message : String)
    (current_content : Option String)
    (hfail : ∀ msgs, capability msgs = Except.error e) :
    rewrite_content capability original_text tone keywords firm_name location =
      Except.error e ∧
    (edit_content capability conversations sid user_message
       current_content).2 = Except.error e := by
  constructor
  · exact hfail _
  · simp [edit_content, hfail]

/-- Concrete instance of `rewrite_edit_propagate_failure`. -/
theorem rewrite_edit_propagate_failure_witness :
    (∀ msgs, (fun (_ : List PyMsg) => Except.error (ε := String)
        (α := String) "boom") msgs = Except.error "boom") ∧
    (rewrite_content (fun _ => Except.error "boom") "orig" "Professional"
       "contract law" "Legal Partners" "New York" = Except.error "boom" ∧
     (edit_content (fun _ => Except.error "boom") [] "sid" "make it shorter"
        (some "Hello")).2 = Except.error "boom") :=
  ⟨fun _ => rfl,
   rewrite_edit_propagate_failure (fun _ => Except.error "boom") "boom"
     "orig" "Professional" "contract law" "Legal Partners" "New York"
     [] "sid" "make it shorter" (some "Hello") (fun _ => rfl)⟩

/-- C7: bootstrapping from generation and finalizing with zero edits persists
exactly the generated content, byte-for-byte, via the content store. -/
theorem generation_then_finalize_persists_exact_content
    (rewriteFn : String → String → String → String → String → String)
    (capability : List PyMsg → Except String String)
    (imagesGenerate : String → Except String String)
    (download : String → Except String String)
    (timestamp : Nat)
    (article articleText formTone formCustomTone keywords firm location : String)
    (saveName freshId now nowHM finalName : String) (store : Store) :
    (finalize finalName
        (select_article_post rewriteFn capability imagesGenerate download
          timestamp article articleText formTone formCustomTone keywords firm
          location saveName freshId now nowHM store).store
        (select_article_post rewriteFn capability imagesGenerate download
          timestamp article articleText formTone formCustomTone keywords firm
          location saveName freshId now nowHM store).st).1.head? =
      some (finalName,
        rewriteFn articleText (effectiveTone formTone formCustomTone)
          keywords firm location) := by
  simp [select_article_post, finalize, Store.save]

/-- C5: when any step of image generation fails (prompt sanitization, the
image API call, or the download), `generate_image` returns `None` instead of
raising, a failure line is logged, and draft creation proceeds with no image
reference: the draft is created, a chat edit still applies, and `finalize`
still renders (with no image) and persists the current content. -/
theorem generate_image_failure_yields_none_flow_proceeds
    (rewriteFn : String → String → String → String → String → String)
    (capability : List PyMsg → Except String String)
    (imagesGenerate download : String → Except String String)
    (timestamp : Nat)
    (article articleText formTone formCustomTone keywords firm location : String)
    (saveName freshId now nowHM : String) (store : Store)
    (editFn : String → String → String → String)
    (instruction fid2 fn2 now2 nowHM2 finalName : String)
    (blog : String) (res : SelectResult)
    (r : SessionState × Store × Response)
    (hblog : blog = rewriteFn articleText
       (effectiveTone formTone formCustomTone) keywords firm location)
    (hres : res = select_article_post rewriteFn capability imagesGenerate
       download timestamp article articleText formTone formCustomTone keywords
       firm location saveName freshId now nowHM store)
    (hr : r = review res.store editFn fid2 fn2 now2 nowHM2
       ⟨true, none, some instruction, none⟩ res.st)
    (hfail :
      (∃ e, get_safe_image_prompt capability blog = Except.error e) ∨
      (∃ s, get_safe_image_prompt capability blog = Except.ok s ∧
        ((∃ e, imagesGenerate s = Except.error e) ∨
         (∃ u, imagesGenerate s = Except.ok u ∧
           ∃ e, download u = Except.error e)))) :
    res.st.current_post.map CurrentPost.image = some none ∧
    res.st.current_post.map CurrentPost.content = some blog ∧
    res.log ≠ [] ∧
    res.response = Response.redirect "review" ∧
    r.2.2 = Response.redirect "review" ∧
    r.1.current_post.map CurrentPost.image = some none ∧
    (finalize finalName r.2.1 r.1).2 = Response.render "finalize.html" none ∧
    (finalize finalName r.2.1 r.1).1.head? =
      some (finalName, editFn freshId instruction blog) := by
  subst hblog
  have hgi : (generate_image capability imagesGenerate download timestamp
      (rewriteFn articleText (effectiveTone formTone formCustomTone) keywords
        firm location)).1 = none ∧
      (generate_image capability imagesGenerate download timestamp
        (rewriteFn articleText (effectiveTone formTone formCustomTone)
          keywords firm location)).2 ≠ [] := by
    rcases hfail with ⟨e, he⟩ | ⟨s, hs, hrest⟩
    · simp [generate_image, he]
    · rcases hrest with ⟨e, he⟩ | ⟨u, hu, e, he⟩
      · simp [generate_image, hs, he]
      · simp [generate_image, hs, hu, he]
  obtain ⟨hgi1, hgi2⟩ := hgi
  subst hres
  subst hr
  refine ⟨?_, ?_, ?_, ?_, ?_, ?_, ?_, ?_⟩
  · simp [select_article_post, hgi1]
  · simp [select_article_post]
  · simpa [select_article_post] using hgi2
  · simp [select_article_post]
  · simp [select_article_post, review, reviewMain, pyTruthy]
  · simp [select_article_post, review, reviewMain, pyTruthy, hgi1]
  · simp [select_article_post, review, reviewMain, pyTruthy, finalize,
      imageUrl, hgi1]
  · simp [select_article_post, review, reviewMain, pyTruthy, finalize,
      Store.save, lastBlogContent]

/-- Concrete instance of `generate_image_failure_yields_none_flow_proceeds`. -/
theorem generate_image_failure_yields_none_flow_proceeds_witness :
    (get_safe_image_prompt exOkCapability "BLOG" = Except.ok "SAFE" ∧
     exFailImages "SAFE" = Except.error "quota") ∧
    (exSelect.st.current_post.map CurrentPost.image = some none ∧
     exSelect.st.current_post.map CurrentPost.content = some "BLOG" ∧
     exSelect.log ≠ [] ∧
     exSelect.response = Response.redirect "review" ∧
     exReview.2.2 = Response.redirect "review" ∧
     exReview.1.current_post.map CurrentPost.image = some none ∧
     (finalize "blog_2.txt" exReview.2.1 exReview.1).2 =
       Response.render "finalize.html" none ∧
     (finalize "blog_2.txt" exReview.2.1 exReview.1).1.head? =
       some ("blog_2.txt", exEditFn "fid" "shorten" "BLOG")) :=
  ⟨⟨rfl, rfl⟩,
   generate_image_failure_yields_none_flow_proceeds exRewriteFn
     exOkCapability exFailImages exOkDownload 7 "A.docx" "orig" "Professional"
     "" "contract law" "Legal Partners" "New York" "blog_1.txt" "fid" "now"
     "t" [] exEditFn "shorten" "fid2" "fn2" "n2" "t2" "blog_2.txt" "BLOG"
     exSelect exReview rfl rfl rfl
     (Or.inr ⟨"SAFE", rfl, Or.inl ⟨"quota", rfl⟩⟩)⟩

/-- C4 (amended): with no live post, `finalize`, `use_version` and
`save_changes` redirect to the dashboard (the article-selection entry point),
and `review` does too unless its `filename` argument names a loadable stored
file — in that case `review` bootstraps a session from the file and serves
the review screen instead of redirecting; in every case the missing state is
handled without an error (the one possible exception, the file read, is
caught and turned into the dashboard redirect). -/
theorem missing_post_redirects_amended
    (store : Store) (editFn : String → String → String → String)
    (freshId newFilename now nowHM finalName : String)
    (c : String) (mc : Option String) (req : ReviewRequest)
    (st : SessionState) (hpost : st.current_post = none) :
    (finalize finalName store st).2 = Response.redirect "dashboard" ∧
    (use_version st c).2 = Response.redirect "dashboard" ∧
    (save_changes nowHM st mc).2 = Response.redirect "dashboard" ∧
    ((∀ f, req.arg_filename = some f → store.load f = none) →
      (review store editFn freshId newFilename now nowHM req st).2.2 =
        Response.redirect "dashboard") ∧
    (∀ f C, req.arg_filename = some f → f ≠ "" → store.load f = some C →
      req.method_post = false →
      (review store editFn freshId newFilename now nowHM req st).2.2 =
        Response.render "review.html" none) := by
  refine ⟨by simp [finalize, hpost], by simp [use_version, hpost],
          by simp [save_changes, hpost], ?_, ?_⟩
  · intro h
    cases hfa : req.arg_filename with
    | none => simp [review, pyTruthy, hfa, reviewMain, hpost]
    | some f =>
      by_cases hf : f = ""
      · simp [review, pyTruthy, hfa, hf, reviewMain, hpost]
      · simp [review, pyTruthy, hfa, hf, h f hfa, reviewMain, hpost]
  · intro f C hfa hne hload hm
    simp [review, pyTruthy, hfa, hne, hload, reviewMain, hm, imageUrl, hpost]

/-- Concrete instance of `missing_post_redirects_amended`. -/
theorem missing_post_redirects_amended_witness :
    emptySession.current_post = none ∧
    ((finalize "blog_9.txt" exampleStore emptySession).2 =
       Response.redirect "dashboard" ∧
     (use_version emptySession "X").2 = Response.redirect "dashboard" ∧
     (save_changes "t9" emptySession (some "X")).2 =
       Response.redirect "dashboard" ∧
     ((∀ f, (⟨false, none, none, none⟩ : ReviewRequest).arg_filename = some f →
         exampleStore.load f = none) →
       (review exampleStore exEditFn "fid" "new.txt" "now" "t9"
         ⟨false, none, none, none⟩ emptySession).2.2 =
         Response.redirect "dashboard") ∧
     (∀ f C,
       (⟨false, none, none, none⟩ : ReviewRequest).arg_filename = some f →
       f ≠ "" → exampleStore.load f = some C →
       (⟨false, none, none, none⟩ : ReviewRequest).method_post = false →
       (review exampleStore exEditFn "fid" "new.txt" "now" "t9"
         ⟨false, none, none, none⟩ emptySession).2.2 =
         Response.render "review.html" none)) :=
  ⟨rfl, missing_post_redirects_amended exampleStore exEditFn "fid" "new.txt"
    "now" "t9" "blog_9.txt" "X" (some "X") ⟨false, none, none, none⟩
    emptySession rfl⟩

/-- C4 counterexample: a `review` request carrying a loadable stored filename
while no post is live does not redirect anywhere — it serves the review
screen — so the claim that every such request redirects to the
article-selection entry point fails at this input. -/
theorem review_with_filename_bootstraps_not_redirects :
    emptySession.current_post = none ∧
    exampleStore.load "f.txt" = some "Saved" ∧
    (review exampleStore exEditFn "fid" "new.txt" "now" "t2"
       ⟨false, some "f.txt", none, none⟩ emptySession).2.2 =
      Response.render "review.html" none ∧
    ∀ target,
      (review exampleStore exEditFn "fid" "new.txt" "now" "t2"
        ⟨false, some "f.txt", none, none⟩ emptySession).2.2 ≠
        Response.redirect target := by
  refine ⟨rfl, rfl, rfl, ?_⟩
  intro target
  intro hcontra
  rw [show (review exampleStore exEditFn "fid" "new.txt" "now" "t2"
      ⟨false, some "f.txt", none, none⟩ emptySession).2.2 =
      Response.render "review.html" none from rfl] at hcontra
  exact Response.noConfusion hcontra

/-- Unfolding of `lookupUser` on a cons cell. -/
theorem lookupUser_cons (x : String × UserRecord) (xs : Users)
    (username : String) :
    lookupUser (x :: xs) username =
      if x.1 == username then some x.2 else lookupUser xs username := by
  cases h : x.1 == username <;> simp [lookupUser, List.find?, h]

/-- Writing a record back under a key that was present makes it the record
found by the next lookup. -/
theorem lookupUser_setUser (users : Users) (username : String)
    (r u : UserRecord) (h : lookupUser users username = some u) :
    lookupUser (setUser users username r) username = some r := by
  induction users with
  | nil => simp [lookupUser] at h
  | cons x xs ih =>
    by_cases hx : x.1 = username
    · simp [setUser, lookupUser_cons, hx]
    · rw [lookupUser_cons] at h
      simp [hx] at h
      have hxs := ih h
      simp [setUser, lookupUser_cons, hx] at hxs ⊢
      exact hxs

/-- C8 (amended): for names without surrounding whitespace — which is what
`add_custom_tone` receives through the `/add_tone` route, since the route
strips its form input — two candidate names equal up to letter case yield
exactly one stored tone: the first add succeeds, the second is rejected as a
duplicate. Raw names with surrounding whitespace can bypass the duplicate
check, because stored names are stripped while the comparison uses the
unstripped candidate (see the counterexample). -/
theorem custom_tone_case_insensitive_dedup_amended
    (users : Users) (username n1 n2 d1 d2 : String) (u : UserRecord)
    (hu : lookupUser users username = some u)
    (hfresh : u.custom_tones.any
      (fun t => pyLower t.name == pyLower n1) = false)
    (h1 : pyStrip n1 = n1)
    (hl : pyLower n1 = pyLower n2) :
    (add_custom_tone users username n1 d1).2 = true ∧
    (add_custom_tone (add_custom_tone users username n1 d1).1
      username n2 d2).2 = false ∧
    (lookupUser (add_custom_tone (add_custom_tone users username n1 d1).1
        username n2 d2).1 username).map UserRecord.custom_tones =
      some (u.custom_tones ++ [⟨n1, pyStrip d1⟩]) := by
  have step1 : add_custom_tone users username n1 d1 =
      (setUser users username
        { u with custom_tones := u.custom_tones ++
            [⟨pyStrip n1, pyStrip d1⟩] },
       true) := by
    simp [add_custom_tone, hu, hfresh]
  have hlook2 : lookupUser
      (setUser users username
        { u with custom_tones := u.custom_tones ++
            [⟨pyStrip n1, pyStrip d1⟩] }) username =
      some { u with custom_tones := u.custom_tones ++
          [⟨pyStrip n1, pyStrip d1⟩] } :=
    lookupUser_setUser users username _ u hu
  have hany : (u.custom_tones ++ [(⟨pyStrip n1, pyStrip d1⟩ : Tone)]).any
      (fun t => pyLower t.name == pyLower n2) = true := by
    simp [h1, hl]
  refine ⟨?_, ?_, ?_⟩
  · rw [step1]
  · rw [step1]
    simp [add_custom_tone, hlook2, hany]
  · rw [step1]
    rw [h1] at hlook2 hany ⊢
    simp [add_custom_tone, hlook2, hany]

/-- Concrete instance of `custom_tone_case_insensitive_dedup_amended`. -/
theorem custom_tone_case_insensitive_dedup_amended_witness :
    (lookupUser USERS "admin" = some ⟨"admin@lawfirm.com", "password123",
       "Legal Partners", "New York", []⟩ ∧
     pyStrip "Formal" = "Formal" ∧
     pyLower "Formal" = pyLower "FORMAL") ∧
    ((add_custom_tone USERS "admin" "Formal" "d1").2 = true ∧
     (add_custom_tone (add_custom_tone USERS "admin" "Formal" "d1").1
       "admin" "FORMAL" "d2").2 = false ∧
     (lookupUser (add_custom_tone (add_custom_tone USERS "admin" "Formal"
         "d1").1 "admin" "FORMAL" "d2").1 "admin").map
       UserRecord.custom_tones = some ([] ++ [⟨"Formal", pyStrip "d1"⟩])) :=
  ⟨⟨rfl, rfl, rfl⟩,
   custom_tone_case_insensitive_dedup_amended USERS "admin" "Formal" "FORMAL"
     "d1" "d2" ⟨"admin@lawfirm.com", "password123", "Legal Partners",
       "New York", []⟩ rfl rfl rfl rfl⟩

/-- C8 counterexample: " Formal" and " FORMAL" differ only in letter case,
yet adding the first and then the second stores two tones — the second add is
accepted — because the first name is stored stripped ("Formal") while the
duplicate check lowercases the unstripped candidate (" FORMAL"). -/
theorem custom_tone_whitespace_bypasses_dedup :
    pyLower " Formal" = pyLower " FORMAL" ∧
    (add_custom_tone USERS "admin" " Formal" "d").2 = true ∧
    (add_custom_tone (add_custom_tone USERS "admin" " Formal" "d").1
      "admin" " FORMAL" "d").2 = true ∧
    (lookupUser (add_custom_tone (add_custom_tone USERS "admin" " Formal"
        "d").1 "admin" " FORMAL" "d").1 "admin").map
      (fun u => u.custom_tones.length) = some 2 := by
  refine ⟨rfl, rfl, ?_, ?_⟩ <;> decide
